import Mathlib

/-!
Verification of the debounced power-state controller of
`snapcast_monitor_kasa.py` (`SystemController` together with `AsyncTimer`).

The Python controller is embedded shallowly:

* `State` mirrors `class State(IntEnum)`.
* `Client`/`Group` carry exactly the fields `update` reads
  (`client.muted`, `client.group.stream_status`).
* Outlet commands, settle sleeps and timer starts/cancellations are
  recorded in an event trace (`Event`).
* An `AsyncTimer` is identified by a unique id plus its timeout; the
  surrounding scheduler state `Sys` keeps the list of asyncio tasks that
  were started and neither cancelled nor fired (`pending`).  Cancelling a
  task removes it from `pending`; a task can fire only while it is a
  member of `pending`, which is the asyncio guarantee that a cancelled
  task's callback never runs.
* An outlet command may fail (raise); the oracle `failOn`/`failOff` says
  which plug's command raises.  Each operation returns the new system,
  the emitted events, and `true` iff it completed without an exception.
  On an exception the Python code simply stops executing the rest of the
  method body, which the embedding reproduces by returning the state at
  the raise point.
-/

namespace SnapcastMonitorKasa

/-- Power states, from `class State(IntEnum)` in the source. -/
inductive State where
  | IDLE
  | IDLE_COUNTDOWN
  | MUTE
  | ACTIVE
deriving DecidableEq, Repr

/-- The `IntEnum` values of the source's `State`. -/
def State.toNat : State → Nat
  | .IDLE => 0
  | .IDLE_COUNTDOWN => 1
  | .MUTE => 2
  | .ACTIVE => 3

/-- The part of a snapcast group that `update` reads: `group.stream_status`. -/
structure Group where
  stream_status : String
deriving DecidableEq, Repr

/-- The part of a snapcast client that `update` reads: `muted` and `group`. -/
structure Client where
  group : Group
  muted : Bool
deriving DecidableEq, Repr

/-- Observable side effects of the controller: outlet commands, the settle
sleeps between them, and timer starts/cancellations. -/
inductive Event where
  | turnOn (plug : Nat)
  | turnOff (plug : Nat)
  | sleep (seconds : Nat)
  | timerStart (timeout : Nat)
  | timerCancel
deriving DecidableEq, Repr

/-- An `AsyncTimer(timeout, self._turn_off)` instance.  The callback is
always `SystemController._turn_off`, so only the timeout is stored; the
id distinguishes distinct timer objects (asyncio tasks). -/
structure AsyncTimer where
  id : Nat
  timeout : Nat
deriving DecidableEq, Repr

/-- The fields of `SystemController`: the device (its `children` as a list
of plug indices), `_state`, and the `_timer` reference. -/
structure SystemController where
  device : List Nat
  state : State
  timer : Option AsyncTimer
deriving DecidableEq, Repr

/-- Controller plus scheduler bookkeeping: `pending` is the list of timer
tasks started and neither cancelled nor fired; `nextId` supplies fresh
timer ids. -/
structure Sys where
  ctrl : SystemController
  pending : List AsyncTimer
  nextId : Nat
deriving DecidableEq, Repr

/-- The constructor `SystemController.__init__`: state `IDLE`, no timer. -/
def Sys.init (device : List Nat) : Sys :=
  { ctrl := { device := device, state := .IDLE, timer := none }
    pending := []
    nextId := 0 }

/-- The loop body of `_turn_on`: `for plug in children: await plug.turn_on();
await asyncio.sleep(1)`.  A failing command emits its attempt and aborts;
on an abort no further plug is commanded and no settle sleep follows. -/
def turnOnLoop (failOn : Nat → Bool) : List Nat → List Event × Bool
  | [] => ([], true)
  | p :: rest =>
    if failOn p then ([Event.turnOn p], false)
    else
      let r := turnOnLoop failOn rest
      (Event.turnOn p :: Event.sleep 1 :: r.1, r.2)

/-- The loop body of `_turn_off` over an already-reversed plug list. -/
def turnOffLoop (failOff : Nat → Bool) : List Nat → List Event × Bool
  | [] => ([], true)
  | p :: rest =>
    if failOff p then ([Event.turnOff p], false)
    else
      let r := turnOffLoop failOff rest
      (Event.turnOff p :: Event.sleep 1 :: r.1, r.2)

/-- The full, failure-free trace of a power-up over a chain. -/
def onTrace : List Nat → List Event
  | [] => []
  | p :: rest => Event.turnOn p :: Event.sleep 1 :: onTrace rest

/-- The full, failure-free trace of a power-down over an (already reversed)
chain. -/
def offTrace : List Nat → List Event
  | [] => []
  | p :: rest => Event.turnOff p :: Event.sleep 1 :: offTrace rest

/-- The plugs commanded on, in order, in a trace. -/
def onPlugs : List Event → List Nat
  | [] => []
  | Event.turnOn p :: rest => p :: onPlugs rest
  | _ :: rest => onPlugs rest

/-- The plugs commanded off, in order, in a trace. -/
def offPlugs : List Event → List Nat
  | [] => []
  | Event.turnOff p :: rest => p :: offPlugs rest
  | _ :: rest => offPlugs rest

/-- The `if self._timer: self._timer.cancel(); self._timer = None` pattern:
cancel the referenced task (it leaves the pending set) and clear the
reference. -/
def Sys.cancelTimer (s : Sys) : Sys × List Event :=
  match s.ctrl.timer with
  | some t =>
      ({ s with ctrl := { s.ctrl with timer := none }
                pending := s.pending.erase t },
        [Event.timerCancel])
  | none => (s, [])

/-- The source's `self._timer = AsyncTimer(timeout, self._turn_off)` plus `self._timer.start()`:
a fresh task joins the pending set and the reference is overwritten. -/
def Sys.startTimer (s : Sys) (timeout : Nat) : Sys × List Event :=
  ({ s with ctrl := { s.ctrl with timer := some { id := s.nextId, timeout := timeout } }
            pending := s.pending ++ [{ id := s.nextId, timeout := timeout }]
            nextId := s.nextId + 1 },
    [Event.timerStart timeout])

/-- Method `SystemController._turn_on`: command each plug of `device.children` in
order with a 1 s settle sleep after each; on completion set state
`ACTIVE`.  A raised command aborts the method with everything else
unchanged. -/
def turn_on (failOn : Nat → Bool) (s : Sys) : Sys × List Event × Bool :=
  let r := turnOnLoop failOn s.ctrl.device
  if r.2 then ({ s with ctrl := { s.ctrl with state := .ACTIVE } }, r.1, true)
  else (s, r.1, false)

/-- Method `SystemController._turn_off`: command each plug of
`reversed(device.children)` in order with a 1 s settle sleep after each;
on completion set state `IDLE` and, if a timer reference is held, cancel
it and clear it.  A raised command aborts the method with everything else
unchanged. -/
def turn_off (failOff : Nat → Bool) (s : Sys) : Sys × List Event × Bool :=
  let r := turnOffLoop failOff s.ctrl.device.reverse
  if r.2 then
    let s1 : Sys := { s with ctrl := { s.ctrl with state := .IDLE } }
    let c := s1.cancelTimer
    (c.1, r.1 ++ c.2, true)
  else (s, r.1, false)

/-- Method `SystemController.update(client)`, translated branch for branch
from the source. -/
def update (failOn : Nat → Bool) (client : Client) (s : Sys) :
    Sys × List Event × Bool :=
  let stream_idle : Bool := decide (client.group.stream_status = "idle")
  let client_idle : Bool := client.muted || stream_idle
  if client_idle = false then
    let r := if s.ctrl.state = State.IDLE then turn_on failOn s else (s, [], true)
    if r.2.2 then
      let s1 : Sys := { r.1 with ctrl := { r.1.ctrl with state := .ACTIVE } }
      let c := s1.cancelTimer
      (c.1, r.2.1 ++ c.2, true)
    else r
  else if stream_idle = true then
    if s.ctrl.state = State.IDLE ∨ s.ctrl.state = State.IDLE_COUNTDOWN then
      (s, [], true)
    else
      let c :=
        if s.ctrl.state = State.MUTE ∧ s.ctrl.timer.isSome then s.cancelTimer
        else (s, [])
      let s1 : Sys := { c.1 with ctrl := { c.1.ctrl with state := .IDLE_COUNTDOWN } }
      let r := s1.startTimer 10
      (r.1, c.2 ++ r.2, true)
  else if client.muted = true then
    if s.ctrl.state = State.MUTE ∨ s.ctrl.state = State.IDLE then
      (s, [], true)
    else
      let c := s.cancelTimer
      let s1 : Sys := { c.1 with ctrl := { c.1.ctrl with state := .MUTE } }
      let r := s1.startTimer 60
      (r.1, c.2 ++ r.2, true)
  else (s, [], true)

/-- A pending timer task fires: the task leaves the pending set (its sleep
has completed, it is now running) and its callback `_turn_off` executes. -/
def fire (failOff : Nat → Bool) (t : AsyncTimer) (s : Sys) : Sys × List Event × Bool :=
  turn_off failOff { s with pending := s.pending.erase t }

/-- One serialized step of the system: a completed or aborted `update`
call, or the firing of a timer task that is still pending. -/
inductive Step : Sys → Sys → Prop where
  | ofUpdate (failOn : Nat → Bool) (client : Client) (s : Sys) :
      Step s (update failOn client s).1
  | ofFire (failOff : Nat → Bool) (t : AsyncTimer) (s : Sys) :
      t ∈ s.pending → Step s (fire failOff t s).1

/-- States reachable from a freshly constructed controller over a device. -/
inductive Reachable (device : List Nat) : Sys → Prop where
  | init : Reachable device (Sys.init device)
  | step {s s' : Sys} : Reachable device s → Step s s' → Reachable device s'

/-- The controller's structural invariant: the pending task (if any) is
exactly the referenced timer, timer ids are below the id counter, and a
timer reference is held exactly outside the `IDLE`/`ACTIVE` states. -/
def Inv (s : Sys) : Prop :=
  (∀ t, s.ctrl.timer = some t →
      (s.pending = [] ∨ s.pending = [t]) ∧ t.id < s.nextId) ∧
  (s.ctrl.timer = none → s.pending = []) ∧
  (s.ctrl.timer = none ↔ (s.ctrl.state = State.IDLE ∨ s.ctrl.state = State.ACTIVE))

/-- A controller over a one-plug device in `IDLE_COUNTDOWN` with the 10 s
timer `⟨0, 10⟩` pending: the state reached from `Sys.init [0]` by a
playing sample followed by a stream-idle sample. -/
def sysCountdown : Sys :=
  { ctrl := { device := [0], state := .IDLE_COUNTDOWN
              timer := some { id := 0, timeout := 10 } }
    pending := [{ id := 0, timeout := 10 }]
    nextId := 1 }

/-- A controller over a one-plug device in `ACTIVE` with no timer: the
state reached from `Sys.init [0]` by a playing sample. -/
def sysActive : Sys :=
  { ctrl := { device := [0], state := .ACTIVE, timer := none }
    pending := []
    nextId := 0 }

/-! ### Trace lemmas -/

theorem turnOnLoop_ok (failOn : Nat → Bool) (chain : List Nat)
    (h : ∀ p ∈ chain, failOn p = false) :
    turnOnLoop failOn chain = (onTrace chain, true) := by
  induction chain with
  | nil => rfl
  | cons p rest ih =>
    have hp : failOn p = false := h p (List.mem_cons_self p rest)
    have hr := ih (fun q hq => h q (List.mem_cons_of_mem p hq))
    simp [turnOnLoop, onTrace, hp, hr]

theorem turnOffLoop_ok (failOff : Nat → Bool) (chain : List Nat)
    (h : ∀ p ∈ chain, failOff p = false) :
    turnOffLoop failOff chain = (offTrace chain, true) := by
  induction chain with
  | nil => rfl
  | cons p rest ih =>
    have hp : failOff p = false := h p (List.mem_cons_self p rest)
    have hr := ih (fun q hq => h q (List.mem_cons_of_mem p hq))
    simp [turnOffLoop, offTrace, hp, hr]

theorem turnOnLoop_fail (failOn : Nat → Bool) (a b : List Nat) (p : Nat)
    (hok : ∀ q ∈ a, failOn q = false) (hp : failOn p = true) :
    turnOnLoop failOn (a ++ p :: b) = (onTrace a ++ [Event.turnOn p], false) := by
  induction a with
  | nil => simp [turnOnLoop, hp, onTrace]
  | cons q rest ih =>
    have hq : failOn q = false := hok q (List.mem_cons_self q rest)
    have hr := ih (fun x hx => hok x (List.mem_cons_of_mem q hx))
    simp [turnOnLoop, onTrace, hq, hr]

theorem turnOffLoop_fail (failOff : Nat → Bool) (a b : List Nat) (p : Nat)
    (hok : ∀ q ∈ a, failOff q = false) (hp : failOff p = true) :
    turnOffLoop failOff (a ++ p :: b) = (offTrace a ++ [Event.turnOff p], false) := by
  induction a with
  | nil => simp [turnOffLoop, hp, offTrace]
  | cons q rest ih =>
    have hq : failOff q = false := hok q (List.mem_cons_self q rest)
    have hr := ih (fun x hx => hok x (List.mem_cons_of_mem q hx))
    simp [turnOffLoop, offTrace, hq, hr]

theorem onPlugs_append (l1 l2 : List Event) :
    onPlugs (l1 ++ l2) = onPlugs l1 ++ onPlugs l2 := by
  induction l1 with
  | nil => rfl
  | cons e rest ih => cases e <;> simp [onPlugs, ih]

theorem offPlugs_append (l1 l2 : List Event) :
    offPlugs (l1 ++ l2) = offPlugs l1 ++ offPlugs l2 := by
  induction l1 with
  | nil => rfl
  | cons e rest ih => cases e <;> simp [offPlugs, ih]

theorem onPlugs_onTrace (chain : List Nat) : onPlugs (onTrace chain) = chain := by
  induction chain with
  | nil => rfl
  | cons p rest ih => simp [onTrace, onPlugs, ih]

theorem offPlugs_offTrace (chain : List Nat) : offPlugs (offTrace chain) = chain := by
  induction chain with
  | nil => rfl
  | cons p rest ih => simp [offTrace, offPlugs, ih]

/-! ### Shape lemmas for the step operations -/

theorem update_device (failOn : Nat → Bool) (client : Client) (s : Sys) :
    (update failOn client s).1.ctrl.device = s.ctrl.device := by
  obtain ⟨⟨dev, st, tm⟩, pend, nid⟩ := s
  cases hm : client.muted <;> by_cases hs : client.group.stream_status = "idle" <;>
    cases st <;> cases tm <;> cases hb : (turnOnLoop failOn dev).2 <;>
      simp [update, turn_on, Sys.cancelTimer, Sys.startTimer, hm, hs, hb]

theorem update_nextId_le (failOn : Nat → Bool) (client : Client) (s : Sys) :
    s.nextId ≤ (update failOn client s).1.nextId := by
  obtain ⟨⟨dev, st, tm⟩, pend, nid⟩ := s
  cases hm : client.muted <;> by_cases hs : client.group.stream_status = "idle" <;>
    cases st <;> cases tm <;> cases hb : (turnOnLoop failOn dev).2 <;>
      simp [update, turn_on, Sys.cancelTimer, Sys.startTimer, hm, hs, hb]

theorem update_pending_mem (failOn : Nat → Bool) (client : Client) (s : Sys) :
    ∀ u ∈ (update failOn client s).1.pending, u ∈ s.pending ∨ u.id = s.nextId := by
  obtain ⟨⟨dev, st, tm⟩, pend, nid⟩ := s
  cases hm : client.muted <;> by_cases hs : client.group.stream_status = "idle" <;>
    cases st <;> cases tm <;> cases hb : (turnOnLoop failOn dev).2 <;>
      simp [update, turn_on, Sys.cancelTimer, Sys.startTimer, hm, hs, hb] <;>
      intro u hu <;>
      first
        | exact Or.inl hu
        | exact Or.inl (List.mem_of_mem_erase hu)
        | (rcases hu with h1 | h1
           · exact Or.inl h1
           · exact Or.inr (by rw [h1]))
        | (rcases hu with h1 | h1
           · exact Or.inl (List.mem_of_mem_erase h1)
           · exact Or.inr (by rw [h1]))

theorem fire_device (failOff : Nat → Bool) (t : AsyncTimer) (s : Sys) :
    (fire failOff t s).1.ctrl.device = s.ctrl.device := by
  obtain ⟨⟨dev, st, tm⟩, pend, nid⟩ := s
  cases tm <;> cases hb : (turnOffLoop failOff dev.reverse).2 <;>
    simp [fire, turn_off, Sys.cancelTimer, hb]

theorem fire_nextId (failOff : Nat → Bool) (t : AsyncTimer) (s : Sys) :
    (fire failOff t s).1.nextId = s.nextId := by
  obtain ⟨⟨dev, st, tm⟩, pend, nid⟩ := s
  cases tm <;> cases hb : (turnOffLoop failOff dev.reverse).2 <;>
    simp [fire, turn_off, Sys.cancelTimer, hb]

theorem fire_pending_mem (failOff : Nat → Bool) (t : AsyncTimer) (s : Sys) :
    ∀ u ∈ (fire failOff t s).1.pending, u ∈ s.pending := by
  obtain ⟨⟨dev, st, tm⟩, pend, nid⟩ := s
  cases tm <;> cases hb : (turnOffLoop failOff dev.reverse).2 <;>
    simp [fire, turn_off, Sys.cancelTimer, hb] <;>
    intro u hu <;>
    first
      | exact hu
      | exact List.mem_of_mem_erase hu
      | exact List.mem_of_mem_erase (List.mem_of_mem_erase hu)

/-! ### Cancelled tasks stay gone, the device never changes -/

theorem not_pending_step {t : AsyncTimer} {s s' : Sys}
    (hlt : t.id < s.nextId) (hnp : t ∉ s.pending) (h : Step s s') :
    t.id < s'.nextId ∧ t ∉ s'.pending := by
  cases h with
  | ofUpdate failOn client s =>
      refine ⟨lt_of_lt_of_le hlt (update_nextId_le failOn client s), fun hmem => ?_⟩
      rcases update_pending_mem failOn client s t hmem with h1 | h1
      · exact hnp h1
      · exact absurd h1 (Nat.ne_of_lt hlt)
  | ofFire failOff u s hu =>
      exact ⟨by rw [fire_nextId]; exact hlt,
        fun hmem => hnp (fire_pending_mem failOff u s t hmem)⟩

theorem not_pending_steps {t : AsyncTimer} {s s' : Sys}
    (hlt : t.id < s.nextId) (hnp : t ∉ s.pending)
    (h : Relation.ReflTransGen Step s s') :
    t.id < s'.nextId ∧ t ∉ s'.pending := by
  induction h with
  | refl => exact ⟨hlt, hnp⟩
  | tail _ hstep ih => exact not_pending_step ih.1 ih.2 hstep

theorem step_device {s s' : Sys} (h : Step s s') :
    s'.ctrl.device = s.ctrl.device := by
  cases h with
  | ofUpdate failOn client s => exact update_device failOn client s
  | ofFire failOff t s hmem => exact fire_device failOff t s

theorem reachable_device {device : List Nat} {s : Sys}
    (h : Reachable device s) : s.ctrl.device = device := by
  induction h with
  | init => rfl
  | step _ hstep ih => rw [step_device hstep, ih]

/-! ### The structural invariant holds in every reachable state -/

theorem inv_init (device : List Nat) : Inv (Sys.init device) := by
  refine ⟨fun t ht => by simp [Sys.init] at ht, fun _ => rfl, ?_⟩
  simp [Sys.init]

theorem inv_update (failOn : Nat → Bool) (client : Client) {s : Sys}
    (h : Inv s) : Inv (update failOn client s).1 := by
  obtain ⟨⟨dev, st, tm⟩, pend, nid⟩ := s
  obtain ⟨h1, h2, h3⟩ := h
  cases tm with
  | none =>
      have hpend : pend = [] := h2 rfl
      subst hpend
      have hst : st = State.IDLE ∨ st = State.ACTIVE := h3.mp rfl
      cases hm : client.muted <;> by_cases hs : client.group.stream_status = "idle" <;>
        rcases hst with rfl | rfl <;> cases hb : (turnOnLoop failOn dev).2 <;>
          simp [update, turn_on, Sys.cancelTimer, Sys.startTimer, Inv, hm, hs, hb]
  | some t =>
      have h4 := h1 t rfl
      have hst : st = State.IDLE_COUNTDOWN ∨ st = State.MUTE := by
        cases st
        · exact absurd (h3.mpr (Or.inl rfl)) (by simp)
        · exact Or.inl rfl
        · exact Or.inr rfl
        · exact absurd (h3.mpr (Or.inr rfl)) (by simp)
      obtain ⟨hp, hid⟩ := h4
      cases hm : client.muted <;> by_cases hs : client.group.stream_status = "idle" <;>
        rcases hst with rfl | rfl <;> rcases hp with rfl | rfl <;>
          simp [update, turn_on, Sys.cancelTimer, Sys.startTimer, Inv, hm, hs,
            Nat.lt_succ_of_lt, hid]

theorem inv_fire (failOff : Nat → Bool) (t : AsyncTimer) {s : Sys}
    (h : Inv s) (hmem : t ∈ s.pending) : Inv (fire failOff t s).1 := by
  obtain ⟨⟨dev, st, tm⟩, pend, nid⟩ := s
  obtain ⟨h1, h2, h3⟩ := h
  cases tm with
  | none =>
      have hpend : pend = [] := h2 rfl
      subst hpend
      exact absurd hmem (by simp)
  | some u =>
      obtain ⟨hp, hid⟩ := h1 u rfl
      rcases hp with rfl | rfl
      · exact absurd hmem (by simp)
      · have ht : t = u := List.mem_singleton.mp hmem
        subst ht
        have hst : st = State.IDLE_COUNTDOWN ∨ st = State.MUTE := by
          cases st
          · exact absurd (h3.mpr (Or.inl rfl)) (by simp)
          · exact Or.inl rfl
          · exact Or.inr rfl
          · exact absurd (h3.mpr (Or.inr rfl)) (by simp)
        rcases hst with rfl | rfl <;>
          cases hb : (turnOffLoop failOff dev.reverse).2 <;>
            simp [fire, turn_off, Sys.cancelTimer, Inv, hb, hid]

theorem inv_step {s s' : Sys} (h : Inv s) (hstep : Step s s') : Inv s' := by
  cases hstep with
  | ofUpdate failOn client s => exact inv_update failOn client h
  | ofFire failOff t s hmem => exact inv_fire failOff t h hmem

theorem reachable_inv {device : List Nat} {s : Sys}
    (h : Reachable device s) : Inv s := by
  induction h with
  | init => exact inv_init device
  | step _ hstep ih => exact inv_step ih hstep

/-! ### Claims -/

/-- Claim C1: an `update` in state `Idle` with a sample where the client is
not idle (`clientMuted = false`, `streamIdle = false`) issues a turn-on
command to every outlet in chain order, with the 1 s settle sleep between
successive commands, and the state becomes `Active` exactly on completion
of the whole sequence (the trace equals the full power-up trace and the
success flag is set). -/
theorem C1_power_up_sequence (chain : List Nat) (client : Client) (s : Sys)
    (hdev : s.ctrl.device = chain) (hst : s.ctrl.state = State.IDLE)
    (ht : s.ctrl.timer = none)
    (hmut : client.muted = false) (hstr : client.group.stream_status ≠ "idle") :
    update (fun _ => false) client s =
      ({ s with ctrl := { s.ctrl with state := State.ACTIVE } },
        onTrace chain, true) ∧
    onPlugs (onTrace chain) = chain := by
  have hloop := turnOnLoop_ok (fun _ => false) chain (fun p _ => rfl)
  refine ⟨?_, onPlugs_onTrace chain⟩
  simp [update, turn_on, Sys.cancelTimer, hdev, hst, ht, hmut, hstr, hloop]

/-- Claim C1 witness: chain `[3, 4]` from the initial state. -/
theorem C1_power_up_sequence_witness :
    update (fun _ => false) ⟨⟨"playing"⟩, false⟩ (Sys.init [3, 4]) =
      ({ Sys.init [3, 4] with
          ctrl := { (Sys.init [3, 4]).ctrl with state := State.ACTIVE } },
        onTrace [3, 4], true) ∧
    onPlugs (onTrace [3, 4]) = [3, 4] :=
  C1_power_up_sequence [3, 4] ⟨⟨"playing"⟩, false⟩ (Sys.init [3, 4])
    rfl rfl rfl rfl (by decide)

/-- Claim C2: when the pending `DelayedAction` fires uninterrupted, its
power-down body issues a turn-off command to every outlet in reversed
chain order with the 1 s settle sleep between successive commands, ends in
state `Idle`, and clears the `DelayedAction` reference to `none` (the
pending set also ends empty). -/
theorem C2_power_down_sequence (chain : List Nat) (t : AsyncTimer) (s : Sys)
    (hdev : s.ctrl.device = chain) (ht : s.ctrl.timer = some t)
    (hp : s.pending = [t]) :
    fire (fun _ => false) t s =
      ({ s with
          ctrl := { s.ctrl with state := State.IDLE, timer := none },
          pending := [] },
        offTrace chain.reverse ++ [Event.timerCancel], true) ∧
    offPlugs (offTrace chain.reverse) = chain.reverse := by
  have hloop := turnOffLoop_ok (fun _ => false) chain.reverse (fun p _ => rfl)
  refine ⟨?_, offPlugs_offTrace chain.reverse⟩
  simp [fire, turn_off, Sys.cancelTimer, hdev, ht, hp, hloop]

/-- Claim C2 witness: the one-plug countdown state. -/
theorem C2_power_down_sequence_witness :
    fire (fun _ => false) ⟨0, 10⟩ sysCountdown =
      ({ sysCountdown with
          ctrl := { sysCountdown.ctrl with state := State.IDLE, timer := none },
          pending := [] },
        offTrace [0].reverse ++ [Event.timerCancel], true) ∧
    offPlugs (offTrace [0].reverse) = [0].reverse :=
  C2_power_down_sequence [0] ⟨0, 10⟩ sysCountdown rfl rfl rfl

/-- Claim C3: on a sample with `clientMuted = true` and `streamIdle = true`
simultaneously, the stream-idle branch wins: from `Active` or `Muted` the
controller enters `IdleCountdown` with a fresh 10 s delayed power-off, and
on such a sample the controller never ends in `Muted` and never starts the
60 s timer. -/
theorem C3_stream_idle_priority (failOn : Nat → Bool) (client : Client) (s : Sys)
    (hmut : client.muted = true) (hstr : client.group.stream_status = "idle") :
    ((s.ctrl.state = State.ACTIVE ∨ s.ctrl.state = State.MUTE) →
      (update failOn client s).1.ctrl.state = State.IDLE_COUNTDOWN ∧
      (update failOn client s).1.ctrl.timer =
        some { id := s.nextId, timeout := 10 } ∧
      Event.timerStart 10 ∈ (update failOn client s).2.1) ∧
    (update failOn client s).1.ctrl.state ≠ State.MUTE ∧
    Event.timerStart 60 ∉ (update failOn client s).2.1 := by
  obtain ⟨⟨dev, st, tm⟩, pend, nid⟩ := s
  cases st <;> cases tm <;>
    simp [update, Sys.cancelTimer, Sys.startTimer, hmut, hstr]

/-- Claim C3 witness: a muted client on an idle stream, from `Active`. -/
theorem C3_stream_idle_priority_witness :
    ((sysActive.ctrl.state = State.ACTIVE ∨ sysActive.ctrl.state = State.MUTE) →
      (update (fun _ => false) ⟨⟨"idle"⟩, true⟩ sysActive).1.ctrl.state =
        State.IDLE_COUNTDOWN ∧
      (update (fun _ => false) ⟨⟨"idle"⟩, true⟩ sysActive).1.ctrl.timer =
        some { id := sysActive.nextId, timeout := 10 } ∧
      Event.timerStart 10 ∈
        (update (fun _ => false) ⟨⟨"idle"⟩, true⟩ sysActive).2.1) ∧
    (update (fun _ => false) ⟨⟨"idle"⟩, true⟩ sysActive).1.ctrl.state ≠
      State.MUTE ∧
    Event.timerStart 60 ∉
      (update (fun _ => false) ⟨⟨"idle"⟩, true⟩ sysActive).2.1 :=
  C3_stream_idle_priority (fun _ => false) ⟨⟨"idle"⟩, true⟩ sysActive rfl rfl

/-- Claim C5: while already in `Idle` or `IdleCountdown`, any sample with
`streamIdle = true` is a complete no-op: the whole system (state, timer
reference, pending set) is returned unchanged, no event is emitted and no
outlet is commanded, so repeated idle samples never restart the timer. -/
theorem C5_idle_idempotent (failOn : Nat → Bool) (client : Client) (s : Sys)
    (hstr : client.group.stream_status = "idle")
    (hst : s.ctrl.state = State.IDLE ∨ s.ctrl.state = State.IDLE_COUNTDOWN) :
    update failOn client s = (s, [], true) := by
  simp [update, hstr, hst]

/-- Claim C5 witness: an idle sample in the countdown state. -/
theorem C5_idle_idempotent_witness :
    update (fun _ => false) ⟨⟨"idle"⟩, false⟩ sysCountdown =
      (sysCountdown, [], true) :=
  C5_idle_idempotent (fun _ => false) ⟨⟨"idle"⟩, false⟩ sysCountdown rfl
    (Or.inr rfl)

/-- Claim C6: on a sample with `streamIdle = false` and `clientMuted = true`,
from `Muted` or `Idle` the update is a complete no-op; from `Active` or
`IdleCountdown` it ends in `Muted` holding a fresh 60 s delayed power-off,
any previously pending `DelayedAction` is cancelled first, and no outlet
command is issued. -/
theorem C6_mute_branch (failOn : Nat → Bool) (client : Client) (s : Sys)
    (hstr : client.group.stream_status ≠ "idle") (hmut : client.muted = true) :
    ((s.ctrl.state = State.MUTE ∨ s.ctrl.state = State.IDLE) →
      update failOn client s = (s, [], true)) ∧
    ((s.ctrl.state = State.ACTIVE ∨ s.ctrl.state = State.IDLE_COUNTDOWN) →
      (update failOn client s).2.2 = true ∧
      (update failOn client s).1.ctrl.state = State.MUTE ∧
      (update failOn client s).1.ctrl.timer =
        some { id := s.nextId, timeout := 60 } ∧
      onPlugs (update failOn client s).2.1 = [] ∧
      offPlugs (update failOn client s).2.1 = [] ∧
      (∀ t, s.ctrl.timer = some t →
        (update failOn client s).2.1 =
          [Event.timerCancel, Event.timerStart 60] ∧
        (update failOn client s).1.pending =
          s.pending.erase t ++ [{ id := s.nextId, timeout := 60 }]) ∧
      (s.ctrl.timer = none →
        (update failOn client s).2.1 = [Event.timerStart 60] ∧
        (update failOn client s).1.pending =
          s.pending ++ [{ id := s.nextId, timeout := 60 }])) := by
  obtain ⟨⟨dev, st, tm⟩, pend, nid⟩ := s
  cases st <;> cases tm <;>
    simp [update, Sys.cancelTimer, Sys.startTimer, onPlugs, offPlugs, hstr, hmut]

/-- Claim C6 witness: a muted sample on a playing stream, from `Active`. -/
theorem C6_mute_branch_witness :
    ((sysActive.ctrl.state = State.MUTE ∨ sysActive.ctrl.state = State.IDLE) →
      update (fun _ => false) ⟨⟨"playing"⟩, true⟩ sysActive =
        (sysActive, [], true)) ∧
    ((sysActive.ctrl.state = State.ACTIVE ∨
        sysActive.ctrl.state = State.IDLE_COUNTDOWN) →
      (update (fun _ => false) ⟨⟨"playing"⟩, true⟩ sysActive).2.2 = true ∧
      (update (fun _ => false) ⟨⟨"playing"⟩, true⟩ sysActive).1.ctrl.state =
        State.MUTE ∧
      (update (fun _ => false) ⟨⟨"playing"⟩, true⟩ sysActive).1.ctrl.timer =
        some { id := sysActive.nextId, timeout := 60 } ∧
      onPlugs (update (fun _ => false) ⟨⟨"playing"⟩, true⟩ sysActive).2.1 = [] ∧
      offPlugs (update (fun _ => false) ⟨⟨"playing"⟩, true⟩ sysActive).2.1 = [] ∧
      (∀ t, sysActive.ctrl.timer = some t →
        (update (fun _ => false) ⟨⟨"playing"⟩, true⟩ sysActive).2.1 =
          [Event.timerCancel, Event.timerStart 60] ∧
        (update (fun _ => false) ⟨⟨"playing"⟩, true⟩ sysActive).1.pending =
          sysActive.pending.erase t ++
            [{ id := sysActive.nextId, timeout := 60 }]) ∧
      (sysActive.ctrl.timer = none →
        (update (fun _ => false) ⟨⟨"playing"⟩, true⟩ sysActive).2.1 =
          [Event.timerStart 60] ∧
        (update (fun _ => false) ⟨⟨"playing"⟩, true⟩ sysActive).1.pending =
          sysActive.pending ++ [{ id := sysActive.nextId, timeout := 60 }])) :=
  C6_mute_branch (fun _ => false) ⟨⟨"playing"⟩, true⟩ sysActive (by decide) rfl

/-- Claim C4: an `update` with a not-idle sample arriving in
`IdleCountdown` (before the pending 10 s task fires) cancels the
`DelayedAction`, sets state `Active`, and the cancelled task never
re-enters the pending set in any later reachable state — since a task can
fire only while pending (`Step.ofFire` requires membership), its
power-down body never executes and it never issues an outlet command. -/
theorem C4_cancellation (failOn : Nat → Bool) (client : Client)
    (s : Sys) (t : AsyncTimer)
    (hst : s.ctrl.state = State.IDLE_COUNTDOWN) (ht : s.ctrl.timer = some t)
    (hp : s.pending = [t]) (hid : t.id < s.nextId)
    (hmut : client.muted = false) (hstr : client.group.stream_status ≠ "idle") :
    (update failOn client s).1.ctrl.state = State.ACTIVE ∧
    (update failOn client s).1.ctrl.timer = none ∧
    (update failOn client s).2.1 = [Event.timerCancel] ∧
    t ∉ (update failOn client s).1.pending ∧
    ∀ s', Relation.ReflTransGen Step (update failOn client s).1 s' →
      t ∉ s'.pending := by
  have hupd : update failOn client s =
      ({ s with
          ctrl := { s.ctrl with state := State.ACTIVE, timer := none },
          pending := [] },
        [Event.timerCancel], true) := by
    simp [update, Sys.cancelTimer, hst, ht, hp, hmut, hstr]
  rw [hupd]
  refine ⟨rfl, rfl, rfl, by simp, fun s' hsteps => ?_⟩
  exact (not_pending_steps (by simpa using hid) (by simp) hsteps).2

/-- Claim C4 witness: the one-plug countdown state and a playing sample. -/
theorem C4_cancellation_witness :
    (update (fun _ => false) ⟨⟨"playing"⟩, false⟩ sysCountdown).1.ctrl.state =
      State.ACTIVE ∧
    (update (fun _ => false) ⟨⟨"playing"⟩, false⟩ sysCountdown).1.ctrl.timer =
      none ∧
    (update (fun _ => false) ⟨⟨"playing"⟩, false⟩ sysCountdown).2.1 =
      [Event.timerCancel] ∧
    (⟨0, 10⟩ : AsyncTimer) ∉
      (update (fun _ => false) ⟨⟨"playing"⟩, false⟩ sysCountdown).1.pending ∧
    ∀ s', Relation.ReflTransGen Step
        (update (fun _ => false) ⟨⟨"playing"⟩, false⟩ sysCountdown).1 s' →
      (⟨0, 10⟩ : AsyncTimer) ∉ s'.pending :=
  C4_cancellation (fun _ => false) ⟨⟨"playing"⟩, false⟩ sysCountdown ⟨0, 10⟩
    rfl rfl rfl (by decide) rfl (by decide)

/-- Claim C7: a failing outlet command aborts the sequencing operation and
the failure propagates (`false` completion flag).  For an aborted
power-up the commands issued are exactly the successful ones plus the
failed attempt — no later outlet is commanded — and the whole system is
returned unchanged, so the state is not set to `Active`; for an aborted
power-down likewise only the reversed-order commands up to the failure
are issued and the controller (state, timer reference) is unchanged, so
the state is not set to `Idle` and the update/fire reports failure. -/
theorem C7_failure_aborts (sUp sDown : Sys) (failOn failOff : Nat → Bool)
    (client : Client) (a b a2 b2 : List Nat) (p p2 : Nat) (t : AsyncTimer)
    (hdev : sUp.ctrl.device = a ++ p :: b)
    (hok : ∀ q ∈ a, failOn q = false) (hfail : failOn p = true)
    (hst : sUp.ctrl.state = State.IDLE)
    (hmut : client.muted = false) (hstr : client.group.stream_status ≠ "idle")
    (hdev2 : sDown.ctrl.device.reverse = a2 ++ p2 :: b2)
    (hok2 : ∀ q ∈ a2, failOff q = false) (hfail2 : failOff p2 = true) :
    update failOn client sUp = (sUp, onTrace a ++ [Event.turnOn p], false) ∧
    fire failOff t sDown =
      ({ sDown with pending := sDown.pending.erase t },
        offTrace a2 ++ [Event.turnOff p2], false) := by
  have hloop := turnOnLoop_fail failOn a b p hok hfail
  have hloop2 := turnOffLoop_fail failOff a2 b2 p2 hok2 hfail2
  constructor
  · simp [update, turn_on, hdev, hst, hmut, hstr, hloop]
  · simp [fire, turn_off, hdev2, hloop2]

/-- Claim C7 witness: power-up failing at the second plug of `[5, 7]` from
the initial state, and power-down failing at the first reversed plug of
the countdown state. -/
theorem C7_failure_aborts_witness :
    update (fun q => decide (q = 7)) ⟨⟨"playing"⟩, false⟩ (Sys.init [5, 7]) =
      (Sys.init [5, 7], onTrace [5] ++ [Event.turnOn 7], false) ∧
    fire (fun q => decide (q = 0)) ⟨0, 10⟩ sysCountdown =
      ({ sysCountdown with pending := sysCountdown.pending.erase ⟨0, 10⟩ },
        offTrace [] ++ [Event.turnOff 0], false) :=
  C7_failure_aborts (Sys.init [5, 7]) sysCountdown
    (fun q => decide (q = 7)) (fun q => decide (q = 0))
    ⟨⟨"playing"⟩, false⟩ [5] [] [] [] 7 0 ⟨0, 10⟩
    rfl (by decide) (by decide) rfl rfl (by decide) (by decide) (by decide)
    (by decide)

/-- Claim C8 counterexample: chain `[0]`, controller in `IdleCountdown`
(the reachable state `sysCountdown`); the 10 s task fires and its
turn-off command fails, so the power-down aborts (flag `false`) with the
state still `IdleCountdown` and nothing pending.  The next
`streamIdle = true` sample is then a complete no-op: no event is emitted,
no timer is started and nothing becomes pending — the code does NOT
re-attempt the power-down, contradicting the claim that "after a failed
power-down the next streamIdle=true sample re-attempts power-down". -/
theorem C8_counterexample :
    (fire (fun _ => true) ⟨0, 10⟩ sysCountdown).2.2 = false ∧
    (fire (fun _ => true) ⟨0, 10⟩ sysCountdown).1.ctrl.state =
      State.IDLE_COUNTDOWN ∧
    update (fun _ => false) ⟨⟨"idle"⟩, false⟩
        (fire (fun _ => true) ⟨0, 10⟩ sysCountdown).1 =
      ((fire (fun _ => true) ⟨0, 10⟩ sysCountdown).1, [], true) ∧
    (update (fun _ => false) ⟨⟨"idle"⟩, false⟩
        (fire (fun _ => true) ⟨0, 10⟩ sysCountdown).1).1.pending = [] := by
  decide

/-- Claim C8 as amended: after a failed power-up (state still `Idle`) the
next `clientIdle = false` sample re-runs the whole power-up sequence and
reaches `Active`; after a failed power-down the controller stays in its
pre-failure state, and only from `Muted` does the next `streamIdle = true`
sample re-attempt power-down by scheduling a fresh 10 s delayed
power-off — from `IdleCountdown` such a sample is a no-op and no
power-down is re-attempted, though the controller remains usable: a
`clientIdle = false` sample still returns it to `Active`. -/
theorem C8_amended_recovery (s : Sys) (cPlay cIdle : Client)
    (hpm : cPlay.muted = false) (hps : cPlay.group.stream_status ≠ "idle")
    (his : cIdle.group.stream_status = "idle") :
    (s.ctrl.state = State.IDLE → s.ctrl.timer = none →
      update (fun _ => false) cPlay s =
        ({ s with ctrl := { s.ctrl with state := State.ACTIVE } },
          onTrace s.ctrl.device, true)) ∧
    (s.ctrl.state = State.MUTE → ∀ t, s.ctrl.timer = some t →
      (update (fun _ => false) cIdle s).1.ctrl.state = State.IDLE_COUNTDOWN ∧
      (update (fun _ => false) cIdle s).1.ctrl.timer =
        some { id := s.nextId, timeout := 10 } ∧
      Event.timerStart 10 ∈ (update (fun _ => false) cIdle s).2.1) ∧
    (s.ctrl.state = State.IDLE_COUNTDOWN →
      update (fun _ => false) cIdle s = (s, [], true)) ∧
    (s.ctrl.state = State.IDLE_COUNTDOWN →
      (update (fun _ => false) cPlay s).1.ctrl.state = State.ACTIVE) := by
  obtain ⟨⟨dev, st, tm⟩, pend, nid⟩ := s
  have hloop := turnOnLoop_ok (fun _ => false) dev (fun p _ => rfl)
  cases st <;> cases tm <;>
    simp [update, turn_on, Sys.cancelTimer, Sys.startTimer, hpm, hps, his, hloop]

/-- Claim C8 (amended) witness: the post-failure countdown state. -/
theorem C8_amended_recovery_witness :
    (sysCountdown.ctrl.state = State.IDLE →
      sysCountdown.ctrl.timer = none →
      update (fun _ => false) ⟨⟨"playing"⟩, false⟩ sysCountdown =
        ({ sysCountdown with
            ctrl := { sysCountdown.ctrl with state := State.ACTIVE } },
          onTrace sysCountdown.ctrl.device, true)) ∧
    (sysCountdown.ctrl.state = State.MUTE →
      ∀ t, sysCountdown.ctrl.timer = some t →
      (update (fun _ => false) ⟨⟨"idle"⟩, false⟩ sysCountdown).1.ctrl.state =
        State.IDLE_COUNTDOWN ∧
      (update (fun _ => false) ⟨⟨"idle"⟩, false⟩ sysCountdown).1.ctrl.timer =
        some { id := sysCountdown.nextId, timeout := 10 } ∧
      Event.timerStart 10 ∈
        (update (fun _ => false) ⟨⟨"idle"⟩, false⟩ sysCountdown).2.1) ∧
    (sysCountdown.ctrl.state = State.IDLE_COUNTDOWN →
      update (fun _ => false) ⟨⟨"idle"⟩, false⟩ sysCountdown =
        (sysCountdown, [], true)) ∧
    (sysCountdown.ctrl.state = State.IDLE_COUNTDOWN →
      (update (fun _ => false) ⟨⟨"playing"⟩, false⟩ sysCountdown).1.ctrl.state =
        State.ACTIVE) :=
  C8_amended_recovery sysCountdown ⟨⟨"playing"⟩, false⟩ ⟨⟨"idle"⟩, false⟩
    rfl (by decide) rfl

/-- Claim C9: in every reachable state, at most one `DelayedAction` is
outstanding — the pending set never holds two timer tasks at once. -/
theorem C9_single_delayed_action {device : List Nat} {s : Sys}
    (h : Reachable device s) : s.pending.length ≤ 1 := by
  obtain ⟨h1, h2, h3⟩ := reachable_inv h
  cases ht : s.ctrl.timer with
  | none => simp [h2 ht]
  | some t => rcases (h1 t ht).1 with hp | hp <;> simp [hp]

/-- Claim C9 witness: the initial state over chain `[0, 1, 2]`. -/
theorem C9_single_delayed_action_witness :
    (Sys.init [0, 1, 2]).pending.length ≤ 1 :=
  C9_single_delayed_action Reachable.init

/-- Claim C10: in every reachable state — so after every completed `update`
call and every completed power-down (and even after aborted ones) — the
controller holds a `DelayedAction` reference exactly when its state is
`IdleCountdown` or `Muted`; in `Idle` and `Active` the reference is
`none`. -/
theorem C10_timer_iff_state {device : List Nat} {s : Sys}
    (h : Reachable device s) :
    s.ctrl.timer.isSome = true ↔
      (s.ctrl.state = State.IDLE_COUNTDOWN ∨ s.ctrl.state = State.MUTE) := by
  obtain ⟨h1, h2, h3⟩ := reachable_inv h
  cases ht : s.ctrl.timer with
  | none =>
      rcases h3.mp ht with h4 | h4 <;> simp [h4]
  | some t =>
      simp only [Option.isSome_some, true_iff]
      cases hst : s.ctrl.state
      · exact absurd (h3.mpr (Or.inl hst)) (by simp [ht])
      · exact Or.inl rfl
      · exact Or.inr rfl
      · exact absurd (h3.mpr (Or.inr hst)) (by simp [ht])

/-- Claim C10 witness: the initial state over chain `[0, 1, 2]`. -/
theorem C10_timer_iff_state_witness :
    (Sys.init [0, 1, 2]).ctrl.timer.isSome = true ↔
      ((Sys.init [0, 1, 2]).ctrl.state = State.IDLE_COUNTDOWN ∨
        (Sys.init [0, 1, 2]).ctrl.state = State.MUTE) :=
  C10_timer_iff_state Reachable.init

end SnapcastMonitorKasa
